import Mathlib

/-!
Shallow embedding of the local service supervisor in
`src/frontend/src-tauri/src/main.rs` (with the variant `get_server_info` of
`src/frontend/src-tauri/src/main_complex.rs`).

Side effects of the Rust code are made explicit:
* OS interactions (HTTP probes, TCP binds, process spawn, the external
  `kill`/`taskkill` command) are oracles collected in environment structures;
* the two `Arc<Mutex<Option<_>>>` cells (`ServerState`, `ProcessState`) become
  an explicit `AppState` record threaded through the functions;
* `app_handle.emit("engine-progress", ...)` calls become an event list in the
  returned outcome, and `cmd.spawn()` invocations are recorded as a trace.
Filesystem path resolution (backend dir, python executable, sidecar search)
cannot fail in the source and only produces the strings used to build the
spawned command; those strings are environment fields.  The log-relay threads
(lines 236-255) never affect the supervisor state or the returned value and
are not modelled.
-/

/-- The `ServerInfo` struct of main.rs lines 14-19: url, port, status. -/
structure ServerInfo where
  url : String
  port : Nat
  status : String
deriving DecidableEq, Repr

/-- The two managed cells of main.rs lines 21-22: `ServerState` holds the
last published `ServerInfo`, `ProcessState` the tracked child process id. -/
structure AppState where
  serverInfo : Option ServerInfo
  processId : Option Nat
deriving DecidableEq, Repr

/-- A progress event payload emitted on the `engine-progress` channel. -/
structure ProgressEvent where
  percent : Nat
  message : String
deriving DecidableEq, Repr

/-- OS network oracle for the port-choice code (main.rs lines 87-105).
`occupied p` says a loopback bind of port `p` fails; `ephemeral` is the
outcome of binding port 0 (the OS-assigned free port, or the OS error). -/
structure OsNet where
  occupied : Nat → Bool
  ephemeral : Except String Nat

/-- Environment oracle for one execution of `start_gradio_server`. -/
structure StartEnv where
  /-- Whether the initial `client.get(default_url)` (lines 34-35) returned `Ok` with a
  success-class status. -/
  defaultProbeSuccess : Bool
  /-- Outcome of `env::current_exe()` (line 56): the exe path, or the OS error text. -/
  currentExe : Except String String
  /-- TCP bind behaviour for the port choice (lines 87-105). -/
  net : OsNet
  /-- First existing sidecar candidate (lines 172-185), if any. -/
  sidecar : Option String
  /-- Resolved python command (lines 107-168); this resolution cannot fail. -/
  pythonCmd : String
  /-- `backend_dir.join("main.py")` as a string (line 80). -/
  mainPy : String
  /-- Outcome of `cmd.spawn()` (line 193 or 220): child pid, or the OS error text. -/
  spawnResult : Except String Nat
  /-- Whether `client.get(url).send()` on readiness attempt `n` returned a
  success-class status (lines 261-262). -/
  probe : String → Nat → Bool

/-- Everything one call of `start_gradio_server` produces: the returned
`Result`, the state after the call, the `engine-progress` events emitted, the
`cmd.spawn()` invocations attempted (command, args), the attempt numbers the
readiness loop probed, and the URL the readiness loop polled (if reached). -/
structure StartOutcome where
  result : Except String ServerInfo
  state : AppState
  events : List ProgressEvent
  spawned : List (String × List String)
  probedAttempts : List Nat
  polledUrl : Option String

/-- Constant `default_url` of main.rs line 32. -/
def default_url : String := "http://127.0.0.1:7860"

/-- Constant `desired_port` of main.rs line 88. -/
def desired_port : Nat := 7860

/-- Attempt bound of main.rs line 260: `for attempt in 1..=30`. -/
def max_attempts : Nat := 30

/-- Port choice of main.rs lines 87-105, generalised over the preferred port
(the source fixes it to `desired_port = 7860`).  A successful bind of the
nonzero preferred port has `local_addr().port()` equal to that port and is
dropped at once; on bind failure the code binds port 0 and returns the
OS-assigned port, and only an error from that second bind is fatal. -/
def allocatePort (net : OsNet) (preferred : Nat) : Except String Nat :=
  if net.occupied preferred then
    match net.ephemeral with
    | Except.error e => Except.error ("Failed to acquire a free port: " ++ e)
    | Except.ok port => Except.ok port
  else
    Except.ok preferred

/-- The command and argument list handed to `cmd.spawn()`: sidecar branch
(main.rs lines 188-192) or python fallback (lines 198-202). -/
def spawnCommand (env : StartEnv) (port : Nat) : String × List String :=
  match env.sidecar with
  | some binPath =>
      (binPath, ["--server.name", "127.0.0.1", "--server.port", toString port])
  | none =>
      (env.pythonCmd,
        [env.mainPy, "--server.name", "127.0.0.1", "--server.port", toString port])

/-- Message of the percent-5 event emitted just before spawning
(main.rs line 187 or 197). -/
def launchMessage (env : StartEnv) : String :=
  match env.sidecar with
  | some _ => "Launching sidecar"
  | none => "Launching Python backend"

/-- Error prefix of the failed-spawn branch (main.rs line 194 or 221). -/
def spawnErrorHead (env : StartEnv) : String :=
  match env.sidecar with
  | some _ => "Failed to spawn sidecar: "
  | none => "Failed to spawn Python process: "

/-- Percent computation of a non-success readiness attempt
(main.rs lines 274-275): `10 + attempt * 3`, capped at 95. -/
def progressPercent (attempt : Nat) : Nat :=
  let percent := 10 + attempt * 3
  if percent > 95 then 95 else percent

/-- Result of the readiness loop: the `ready` flag, the events it emitted,
and the attempt numbers on which a probe was actually sent. -/
structure PollResult where
  ready : Bool
  events : List ProgressEvent
  attempts : List Nat
deriving DecidableEq, Repr

/-- Readiness loop of main.rs lines 259-280, with the remaining iteration
count as fuel (`attempt` runs 1..=30, so the loop starts as
`pollLoop probeAt 1 max_attempts`).  A success-class response emits
`percent = 100` and breaks; anything else emits the capped ramp percent and
sleeps 300 ms (time is not modelled) before the next attempt. -/
def pollLoop (probeAt : Nat → Bool) : Nat → Nat → PollResult
  | _, 0 => ⟨false, [], []⟩
  | attempt, fuel + 1 =>
    if probeAt attempt then
      ⟨true, [⟨100, "Engine ready"⟩], [attempt]⟩
    else
      let rest := pollLoop probeAt (attempt + 1) fuel
      ⟨rest.ready, ⟨progressPercent attempt, "Starting engine..."⟩ :: rest.events,
        attempt :: rest.attempts⟩

/-- Embedding of `start_gradio_server` (main.rs lines 24-299).  Control flow, in source
order: (1) if a GET on `default_url` already answers with success, publish
`ServerInfo{url: default_url, port: 7860, status: "running"}` and return it
without touching anything else; (2) resolve `current_exe`, failing with its
error; (3) choose a port via the lines 87-105 logic; (4) emit the percent-5
launch event and spawn the sidecar or python child, failing with the spawn
error; (5) record the child pid in `ProcessState`; (6) run the readiness loop
against `http://127.0.0.1:{chosen_port}`; on timeout return the
not-responding error (the pid stays recorded), on success publish the
`ServerInfo` and return it. -/
def start_gradio_server (env : StartEnv) (st : AppState) : StartOutcome :=
  if env.defaultProbeSuccess then
    let info : ServerInfo := ⟨default_url, 7860, "running"⟩
    ⟨Except.ok info, { st with serverInfo := some info }, [], [], [], none⟩
  else
    match env.currentExe with
    | Except.error e =>
        ⟨Except.error ("Failed to get current exe: " ++ e), st, [], [], [], none⟩
    | Except.ok _ =>
      match allocatePort env.net desired_port with
      | Except.error e => ⟨Except.error e, st, [], [], [], none⟩
      | Except.ok chosen_port =>
        let launchEv : ProgressEvent := ⟨5, launchMessage env⟩
        let cmd := spawnCommand env chosen_port
        match env.spawnResult with
        | Except.error e =>
            ⟨Except.error (spawnErrorHead env ++ e), st, [launchEv], [cmd], [], none⟩
        | Except.ok pid =>
          let st1 := { st with processId := some pid }
          let server_url := "http://127.0.0.1:" ++ toString chosen_port
          let poll := pollLoop (env.probe server_url) 1 max_attempts
          if poll.ready then
            let info : ServerInfo := ⟨server_url, chosen_port, "running"⟩
            ⟨Except.ok info, { st1 with serverInfo := some info },
              launchEv :: poll.events, [cmd], poll.attempts, some server_url⟩
          else
            ⟨Except.error ("Server failed to start or is not responding at " ++ server_url),
              st1, launchEv :: poll.events, [cmd], poll.attempts, some server_url⟩

/-- Embedding of `get_server_info` (main.rs lines 301-312): clones the stored
`Option<ServerInfo>` and turns `None` into the error "Server not started". -/
def get_server_info (st : AppState) : Except String ServerInfo :=
  match st.serverInfo with
  | some info => Except.ok info
  | none => Except.error "Server not started"

namespace MainComplex

/-- Embedding of `get_server_info` of main_complex.rs lines 109-113: returns the stored
`Option<ServerInfo>` as-is, inside `Ok`. -/
def get_server_info (serverState : Option ServerInfo) :
    Except String (Option ServerInfo) :=
  Except.ok serverState

end MainComplex

/-- What running the platform kill command (`kill -9 pid` on Unix,
`taskkill /F /PID pid` on Windows) through `Command::output()` yields.
`Command::output()` fails (the `Except.error` side, carrying the IO error
text) only when the kill command itself cannot be executed; if the command
runs, its exit status and stderr are captured here - a `kill` of an
already-exited pid runs fine and merely exits unsuccessfully. -/
structure KillOutput where
  statusSuccess : Bool
  stderrText : String
deriving DecidableEq, Repr

/-- OS oracle for `stop_whisper_server`: the outcome of executing the kill
command on a given pid. -/
structure KillOs where
  runKill : Nat → Except String KillOutput

/-- Embedding of `stop_whisper_server` (main.rs lines 672-706): reads the tracked pid
(error "No server process found" if absent), runs the platform kill command,
propagates only a `Command::output()` execution error (prefixed
"Failed to kill process: "), discards the command's `Output` - exit status
included - then clears the tracked pid and returns `Ok(())`.  The
`ServerState` cell is not touched. -/
def stop_whisper_server (os : KillOs) (st : AppState) :
    Except String Unit × AppState :=
  match st.processId with
  | some pid =>
    match os.runKill pid with
    | Except.error e => (Except.error ("Failed to kill process: " ++ e), st)
    | Except.ok _ => (Except.ok (), { st with processId := none })
  | none => (Except.error "No server process found", st)

/-- The events the readiness loop emits for `k` consecutive failing attempts
starting at attempt `a`. -/
def failEvents : Nat → Nat → List ProgressEvent
  | _, 0 => []
  | a, k + 1 => ⟨progressPercent a, "Starting engine..."⟩ :: failEvents (a + 1) k

/-- The attempt numbers of `k` consecutive attempts starting at `a`. -/
def failAttempts : Nat → Nat → List Nat
  | _, 0 => []
  | a, k + 1 => a :: failAttempts (a + 1) k

/-- Helper predicate: `hasPortArg args p` checks that `args` contains the flag
`"--server.port"` immediately followed by the decimal rendering of `p`. -/
def hasPortArg : List String → Nat → Bool
  | a :: b :: rest, p =>
      (a == "--server.port" && b == toString p) || hasPortArg (b :: rest) p
  | _, _ => false

/-- Concrete fixture: the `ServerInfo` published for the default endpoint. -/
def info7860 : ServerInfo := ⟨"http://127.0.0.1:7860", 7860, "running"⟩

/-- Concrete fixture: a kill command that executes and exits successfully. -/
def okKill : KillOs := ⟨fun _ => Except.ok ⟨true, ""⟩⟩

/-- Concrete fixture: the kill command executes but the target pid has
already exited, so the command exits unsuccessfully with a not-found
diagnostic (this is an `Ok` of `Command::output()`). -/
def staleKill : KillOs := ⟨fun _ => Except.ok ⟨false, "kill: (42) - No such process"⟩⟩

/-- Concrete fixture: everything resolves, the default endpoint is silent,
port 7860 is free, the child spawns as pid 4242, and no readiness probe ever
succeeds. -/
def envTimeout : StartEnv :=
  { defaultProbeSuccess := false
    currentExe := Except.ok "/opt/app/bin/app"
    net := ⟨fun _ => false, Except.ok 49152⟩
    sidecar := none
    pythonCmd := "python3"
    mainPy := "/opt/backend/main.py"
    spawnResult := Except.ok 4242
    probe := fun _ _ => false }

/-- Concrete fixture: like `envTimeout` but the default endpoint already
answers with success. -/
def envReachable : StartEnv := { envTimeout with defaultProbeSuccess := true }

/-- Concrete fixture: like `envTimeout` but the first readiness probe
succeeds. -/
def envFirstTry : StartEnv := { envTimeout with probe := fun _ n => n == 1 }

/-- Concrete fixture: port 7860 is occupied, the OS hands out the ephemeral
port 49152, and the first readiness probe succeeds. -/
def envBusyPort : StartEnv :=
  { envTimeout with
    net := ⟨fun p => p == 7860, Except.ok 49152⟩
    probe := fun _ n => n == 1 }

/-! ### Helper lemmas -/

/-- The ramp percent never exceeds the cap 95. -/
theorem progressPercent_le (n : Nat) : progressPercent n ≤ 95 := by
  simp only [progressPercent]
  split <;> omega

/-- The ramp percent is the capped linear ramp with floor 10 and cap 95. -/
theorem progressPercent_eq_ramp (n : Nat) :
    progressPercent n = min 95 (max 10 (10 + 3 * n)) := by
  simp only [progressPercent]
  split <;> omega

/-- Length of a block of failing-attempt events. -/
theorem failEvents_length (a k : Nat) : (failEvents a k).length = k := by
  induction k generalizing a with
  | zero => rfl
  | succ k ih => simp [failEvents, ih]

/-- The `i`-th failing-attempt event carries the ramp percent of attempt
`a + i`. -/
theorem failEvents_getElem (a k i : Nat) (h : i < k) :
    (failEvents a k)[i]? = some ⟨progressPercent (a + i), "Starting engine..."⟩ := by
  induction k generalizing a i with
  | zero => omega
  | succ k ih =>
      cases i with
      | zero => simp [failEvents]
      | succ i =>
          have hi : i < k := by omega
          have e1 : a + 1 + i = a + (i + 1) := by omega
          simp only [failEvents, List.getElem?_cons_succ]
          rw [ih (a + 1) i hi, e1]

/-- Every failing-attempt event is a ramp event of some attempt in the
block. -/
theorem mem_failEvents {ev : ProgressEvent} (a k : Nat)
    (h : ev ∈ failEvents a k) :
    ∃ j, a ≤ j ∧ j < a + k ∧ ev = ⟨progressPercent j, "Starting engine..."⟩ := by
  induction k generalizing a with
  | zero => simp [failEvents] at h
  | succ k ih =>
      simp only [failEvents, List.mem_cons] at h
      rcases h with h | h
      · exact ⟨a, Nat.le_refl a, by omega, h⟩
      · rcases ih (a + 1) h with ⟨j, hj1, hj2, hj3⟩
        exact ⟨j, by omega, by omega, hj3⟩

/-- Every attempt number in a block of failing attempts lies in the block. -/
theorem mem_failAttempts {x : Nat} (a k : Nat) (h : x ∈ failAttempts a k) :
    a ≤ x ∧ x < a + k := by
  induction k generalizing a with
  | zero => simp [failAttempts] at h
  | succ k ih =>
      simp only [failAttempts, List.mem_cons] at h
      rcases h with h | h
      · omega
      · rcases ih (a + 1) h with ⟨h1, h2⟩
        omega

/-- Splitting the readiness loop after `n` failing attempts: the loop first
emits the `n` ramp events and then continues as the loop started at attempt
`a + n` with the remaining fuel. -/
theorem pollLoop_split (probeAt : Nat → Bool) (a n f : Nat) (hn : n ≤ f)
    (h : ∀ j, a ≤ j → j < a + n → probeAt j = false) :
    pollLoop probeAt a f =
      ⟨(pollLoop probeAt (a + n) (f - n)).ready,
        failEvents a n ++ (pollLoop probeAt (a + n) (f - n)).events,
        failAttempts a n ++ (pollLoop probeAt (a + n) (f - n)).attempts⟩ := by
  induction n generalizing a f with
  | zero => simp [failEvents, failAttempts]
  | succ n ih =>
      cases f with
      | zero => omega
      | succ f =>
          have ha : probeAt a = false := h a (Nat.le_refl a) (by omega)
          have hstep : pollLoop probeAt a (f + 1) =
              ⟨(pollLoop probeAt (a + 1) f).ready,
                ⟨progressPercent a, "Starting engine..."⟩ ::
                  (pollLoop probeAt (a + 1) f).events,
                a :: (pollLoop probeAt (a + 1) f).attempts⟩ := by
            simp [pollLoop, ha]
          have e1 : a + 1 + n = a + (n + 1) := by omega
          have e2 : f + 1 - (n + 1) = f - n := by omega
          rw [hstep, ih (a + 1) f (by omega)
            (fun j h1 h2 => h j (by omega) (by omega))]
          simp only [failEvents, failAttempts, e1, e2, List.cons_append]

/-- If every attempt in the fuel budget fails, the loop ends not ready,
having emitted exactly the ramp events. -/
theorem pollLoop_all_fail (probeAt : Nat → Bool) (a f : Nat)
    (h : ∀ j, a ≤ j → j < a + f → probeAt j = false) :
    pollLoop probeAt a f = ⟨false, failEvents a f, failAttempts a f⟩ := by
  have hs := pollLoop_split probeAt a f f (Nat.le_refl f) h
  simpa [pollLoop] using hs

/-- If attempt `a + k` is the first success within the fuel budget, the loop
stops there: `k` ramp events, one final 100-percent event, and no probe after
attempt `a + k`. -/
theorem pollLoop_first_success (probeAt : Nat → Bool) (a k f : Nat)
    (hk : k < f) (hs : probeAt (a + k) = true)
    (h : ∀ j, a ≤ j → j < a + k → probeAt j = false) :
    pollLoop probeAt a f =
      ⟨true, failEvents a k ++ [⟨100, "Engine ready"⟩],
        failAttempts a k ++ [a + k]⟩ := by
  have hsplit := pollLoop_split probeAt a k f (by omega) h
  have htail : pollLoop probeAt (a + k) (f - k) =
      ⟨true, [⟨100, "Engine ready"⟩], [a + k]⟩ := by
    have hf : f - k = (f - k - 1) + 1 := by omega
    rw [hf]
    simp [pollLoop, hs]
  rw [hsplit, htail]

/-! ### Claims -/

/-- C1 (counterexample): with a published `ServerInfo` and a tracked pid, a
stop whose kill command runs fine returns `Ok`, yet a subsequent
`get_server_info` still returns the old `ServerInfo` - the server is still
reported as present, refuting "after a successful stop, a subsequent query
returns empty/absent". -/
theorem C1_counterexample :
    (stop_whisper_server okKill ⟨some info7860, some 42⟩).fst = Except.ok ()
    ∧ get_server_info (stop_whisper_server okKill ⟨some info7860, some 42⟩).snd
        = Except.ok info7860 :=
  ⟨rfl, rfl⟩

/-- C1 (amended): a successful stop clears the tracked process id but does
not clear the `ServerInfo` registry, so a subsequent `get_server_info` (with
no intervening start) returns exactly what it returned before the stop. -/
theorem C1_stop_clears_pid_not_registry (os : KillOs) (st : AppState)
    (pid : Nat) (out : KillOutput) (hpid : st.processId = some pid)
    (hkill : os.runKill pid = Except.ok out) :
    (stop_whisper_server os st).fst = Except.ok ()
    ∧ (stop_whisper_server os st).snd.processId = none
    ∧ (stop_whisper_server os st).snd.serverInfo = st.serverInfo
    ∧ get_server_info (stop_whisper_server os st).snd = get_server_info st := by
  simp [stop_whisper_server, hpid, hkill, get_server_info]

/-- C1 witness: the amended statement at a concrete state and kill oracle. -/
theorem C1_witness :
    (AppState.processId ⟨some info7860, some 42⟩ = some 42)
    ∧ (okKill.runKill 42 = Except.ok ⟨true, ""⟩)
    ∧ (stop_whisper_server okKill ⟨some info7860, some 42⟩).fst = Except.ok ()
    ∧ (stop_whisper_server okKill ⟨some info7860, some 42⟩).snd.serverInfo
        = some info7860 :=
  ⟨rfl, rfl,
    (C1_stop_clears_pid_not_registry okKill ⟨some info7860, some 42⟩ 42
      ⟨true, ""⟩ rfl rfl).1,
    (C1_stop_clears_pid_not_registry okKill ⟨some info7860, some 42⟩ 42
      ⟨true, ""⟩ rfl rfl).2.2.1⟩

/-- C2: if the initial GET on the default endpoint answers with a
success-class status, `start_gradio_server` returns
`ServerInfo{url: "http://127.0.0.1:7860", port: 7860, status: "running"}`,
stores it in the registry, spawns nothing, and leaves the tracked pid
unchanged. -/
theorem C2_idempotent_reachable (env : StartEnv) (st : AppState)
    (hd : env.defaultProbeSuccess = true) :
    (start_gradio_server env st).result = Except.ok info7860
    ∧ (start_gradio_server env st).state.serverInfo = some info7860
    ∧ (start_gradio_server env st).state.processId = st.processId
    ∧ (start_gradio_server env st).spawned = [] := by
  simp [start_gradio_server, hd, info7860, default_url]

/-- C2 witness: the reachable-endpoint environment at a concrete state. -/
theorem C2_witness :
    (envReachable.defaultProbeSuccess = true)
    ∧ (start_gradio_server envReachable ⟨none, none⟩).result = Except.ok info7860
    ∧ (start_gradio_server envReachable ⟨none, none⟩).spawned = [] :=
  ⟨rfl, (C2_idempotent_reachable envReachable ⟨none, none⟩ rfl).1,
    (C2_idempotent_reachable envReachable ⟨none, none⟩ rfl).2.2.2⟩

/-- C6: for every preferred port `P`, (i) if binding `P` succeeds the
allocator returns `P`; (ii) if `P` is occupied and the OS assigns ephemeral
port `q`, the allocator returns `q`, which differs from `P` and is bindable
(not occupied) at allocation time; (iii) the allocator fails only when the
bind of port 0 itself fails, i.e. the OS cannot allocate any port.  The
well-formedness hypothesis `hwf` says an OS-assigned ephemeral port is free
at assignment time (the glossary's guarantee). -/
theorem C6_port_allocation (net : OsNet) (P : Nat)
    (hwf : ∀ q : Nat, net.ephemeral = Except.ok q → net.occupied q = false) :
    (net.occupied P = false → allocatePort net P = Except.ok P)
    ∧ (∀ q, net.occupied P = true → net.ephemeral = Except.ok q →
        allocatePort net P = Except.ok q ∧ q ≠ P ∧ net.occupied q = false)
    ∧ (∀ msg, allocatePort net P = Except.error msg →
        ∃ e, net.ephemeral = Except.error e
          ∧ msg = "Failed to acquire a free port: " ++ e) := by
  refine ⟨?_, ?_, ?_⟩
  · intro hfree
    simp [allocatePort, hfree]
  · intro q hocc heph
    have hqfree : net.occupied q = false := hwf q heph
    refine ⟨by simp [allocatePort, hocc, heph], ?_, hqfree⟩
    intro hqP
    rw [hqP, hocc] at hqfree
    exact Bool.noConfusion hqfree
  · intro msg herr
    rcases hb : net.occupied P with _ | _
    · simp [allocatePort, hb] at herr
    · rcases he : net.ephemeral with e | q
      · refine ⟨e, rfl, ?_⟩
        simp [allocatePort, hb, he] at herr
        exact herr.symm
      · simp [allocatePort, hb, he] at herr

/-- C6 witness: port 7860 occupied, OS hands out the free port 49152. -/
theorem C6_witness :
    (OsNet.occupied ⟨fun p => p == 7860, Except.ok 49152⟩ 7860 = true)
    ∧ allocatePort ⟨fun p => p == 7860, Except.ok 49152⟩ 7860 = Except.ok 49152
    ∧ 49152 ≠ 7860
    ∧ OsNet.occupied ⟨fun p => p == 7860, Except.ok 49152⟩ 49152 = false := by
  refine ⟨rfl, ?_⟩
  have h := (C6_port_allocation ⟨fun p => p == 7860, Except.ok 49152⟩ 7860
    (by intro q hq; cases hq; rfl)).2.1 49152 rfl rfl
  exact ⟨h.1, h.2.1, h.2.2⟩

/-- C7 (counterexample): on the empty state, `get_server_info` of main.rs
signals "not started" as a failure result, not as Option-style absence. -/
theorem C7_counterexample :
    get_server_info ⟨none, none⟩ = Except.error "Server not started" :=
  rfl

/-- C7 (amended): with no stored `ServerInfo`, the main.rs `get_server_info`
returns the error "Server not started" (a failure result), while the
main_complex.rs variant returns `Ok(None)` (Option-style absence). -/
theorem C7_empty_query :
    (∀ st : AppState, st.serverInfo = none →
        get_server_info st = Except.error "Server not started")
    ∧ MainComplex.get_server_info none = Except.ok none := by
  refine ⟨?_, rfl⟩
  intro st h
  simp [get_server_info, h]

/-- C7 witness: the amended statement at a concrete empty-registry state. -/
theorem C7_witness :
    get_server_info ⟨none, some 7⟩ = Except.error "Server not started" :=
  C7_empty_query.1 ⟨none, some 7⟩ rfl

/-- C8 (counterexample): a tracked pid whose process has already exited
makes the kill command run but exit unsuccessfully with a not-found
diagnostic; `Command::output()` still returns `Ok`, its exit status is
discarded, and stop reports success - refuting "is reported as a failure by
stop". -/
theorem C8_counterexample :
    (stop_whisper_server staleKill ⟨none, some 42⟩).fst = Except.ok ()
    ∧ (stop_whisper_server staleKill ⟨none, some 42⟩).snd.processId = none :=
  ⟨rfl, rfl⟩

/-- C8 (amended): with a tracked pid, whenever the platform kill command
itself executes - including the already-exited case, where it exits
unsuccessfully with a not-found diagnostic - stop returns success and clears
the tracked pid, because the command's exit status is discarded; stop
reports a kill failure only when the kill command cannot be executed at
all. -/
theorem C8_stale_pid_stop (os : KillOs) (st : AppState) (pid : Nat)
    (hpid : st.processId = some pid) :
    (∀ out : KillOutput, os.runKill pid = Except.ok out →
        (stop_whisper_server os st).fst = Except.ok ()
        ∧ (stop_whisper_server os st).snd.processId = none)
    ∧ (∀ e : String, os.runKill pid = Except.error e →
        (stop_whisper_server os st).fst =
          Except.error ("Failed to kill process: " ++ e)) := by
  constructor
  · intro out hout
    simp [stop_whisper_server, hpid, hout]
  · intro e he
    simp [stop_whisper_server, hpid, he]

/-- C8 witness: the amended statement at the concrete stale-pid oracle. -/
theorem C8_witness :
    (AppState.processId ⟨none, some 42⟩ = some 42)
    ∧ (staleKill.runKill 42
        = Except.ok ⟨false, "kill: (42) - No such process"⟩)
    ∧ (stop_whisper_server staleKill ⟨none, some 42⟩).fst = Except.ok () :=
  ⟨rfl, rfl,
    ((C8_stale_pid_stop staleKill ⟨none, some 42⟩ 42 rfl).1
      ⟨false, "kill: (42) - No such process"⟩ rfl).1⟩

/-- Shared reduction: when the early-reachable path is not taken, the exe
resolves, a port is chosen and the spawn succeeds, the outcome components
that do not depend on readiness are fixed: one launch event followed by the
loop's events, exactly one spawn with the chosen port, the loop's attempt
trace, the loop's target URL, and the recorded pid. -/
theorem start_run_components (env : StartEnv) (st : AppState) (exe : String)
    (chosen pid : Nat)
    (hd : env.defaultProbeSuccess = false)
    (hce : env.currentExe = Except.ok exe)
    (hap : allocatePort env.net desired_port = Except.ok chosen)
    (hsp : env.spawnResult = Except.ok pid) :
    (start_gradio_server env st).events =
        ⟨5, launchMessage env⟩ ::
          (pollLoop (env.probe ("http://127.0.0.1:" ++ toString chosen))
            1 max_attempts).events
    ∧ (start_gradio_server env st).spawned = [spawnCommand env chosen]
    ∧ (start_gradio_server env st).probedAttempts =
        (pollLoop (env.probe ("http://127.0.0.1:" ++ toString chosen))
          1 max_attempts).attempts
    ∧ (start_gradio_server env st).polledUrl =
        some ("http://127.0.0.1:" ++ toString chosen)
    ∧ (start_gradio_server env st).state.processId = some pid := by
  cases hr : (pollLoop (env.probe ("http://127.0.0.1:" ++ toString chosen))
      1 max_attempts).ready <;>
    simp [start_gradio_server, hd, hce, hap, hsp, hr]

/-- Shared reduction: same premises, readiness loop ends ready - the success
result and published registry entry. -/
theorem start_run_ready (env : StartEnv) (st : AppState) (exe : String)
    (chosen pid : Nat)
    (hd : env.defaultProbeSuccess = false)
    (hce : env.currentExe = Except.ok exe)
    (hap : allocatePort env.net desired_port = Except.ok chosen)
    (hsp : env.spawnResult = Except.ok pid)
    (hr : (pollLoop (env.probe ("http://127.0.0.1:" ++ toString chosen))
        1 max_attempts).ready = true) :
    (start_gradio_server env st).result =
        Except.ok ⟨"http://127.0.0.1:" ++ toString chosen, chosen, "running"⟩
    ∧ (start_gradio_server env st).state.serverInfo =
        some ⟨"http://127.0.0.1:" ++ toString chosen, chosen, "running"⟩ := by
  simp [start_gradio_server, hd, hce, hap, hsp, hr]

/-- Shared reduction: same premises, readiness loop ends not ready - the
timeout error, with the registry untouched. -/
theorem start_run_timeout (env : StartEnv) (st : AppState) (exe : String)
    (chosen pid : Nat)
    (hd : env.defaultProbeSuccess = false)
    (hce : env.currentExe = Except.ok exe)
    (hap : allocatePort env.net desired_port = Except.ok chosen)
    (hsp : env.spawnResult = Except.ok pid)
    (hr : (pollLoop (env.probe ("http://127.0.0.1:" ++ toString chosen))
        1 max_attempts).ready = false) :
    (start_gradio_server env st).result =
        Except.error ("Server failed to start or is not responding at "
          ++ ("http://127.0.0.1:" ++ toString chosen))
    ∧ (start_gradio_server env st).state.serverInfo = st.serverInfo := by
  simp [start_gradio_server, hd, hce, hap, hsp, hr]

/-- C3: when the run reaches the readiness loop and all 30 probe attempts
fail, `start_gradio_server` returns the not-responding error string and no
`engine-progress` event of the whole call carries `percent = 100`. -/
theorem C3_timeout_no_hundred (env : StartEnv) (st : AppState) (exe : String)
    (chosen pid : Nat)
    (hd : env.defaultProbeSuccess = false)
    (hce : env.currentExe = Except.ok exe)
    (hap : allocatePort env.net desired_port = Except.ok chosen)
    (hsp : env.spawnResult = Except.ok pid)
    (hprobe : ∀ n, 1 ≤ n → n ≤ max_attempts →
        env.probe ("http://127.0.0.1:" ++ toString chosen) n = false) :
    (start_gradio_server env st).result =
        Except.error ("Server failed to start or is not responding at "
          ++ ("http://127.0.0.1:" ++ toString chosen))
    ∧ ∀ ev ∈ (start_gradio_server env st).events, ev.percent ≠ 100 := by
  have hpoll : pollLoop (env.probe ("http://127.0.0.1:" ++ toString chosen))
      1 max_attempts
      = ⟨false, failEvents 1 max_attempts, failAttempts 1 max_attempts⟩ :=
    pollLoop_all_fail _ 1 max_attempts (fun j h1 h2 => hprobe j h1 (by omega))
  constructor
  · exact (start_run_timeout env st exe chosen pid hd hce hap hsp
      (by rw [hpoll])).1
  · intro ev hev
    rw [(start_run_components env st exe chosen pid hd hce hap hsp).1,
      hpoll] at hev
    simp only [List.mem_cons] at hev
    rcases hev with rfl | hev
    · simp
    · rcases mem_failEvents 1 max_attempts hev with ⟨j, _, _, rfl⟩
      have := progressPercent_le j
      show progressPercent j ≠ 100
      omega

/-- C3 witness: the all-fail environment; the call ends in the timeout
error. -/
theorem C3_witness :
    (envTimeout.spawnResult = Except.ok 4242)
    ∧ (start_gradio_server envTimeout ⟨none, none⟩).result =
        Except.error ("Server failed to start or is not responding at "
          ++ ("http://127.0.0.1:" ++ toString 7860)) :=
  ⟨rfl,
    (C3_timeout_no_hundred envTimeout ⟨none, none⟩ "/opt/app/bin/app" 7860 4242
      rfl rfl rfl rfl (fun _ _ _ => rfl)).1⟩

/-- C4: when the run reaches the readiness loop and attempt `k` (within the
30-attempt budget) is the first probe answered with a success-class status,
`start_gradio_server` returns `Ok` with the polled URL and chosen port,
exactly one emitted `engine-progress` event carries `percent = 100`, and no
probe attempt beyond `k` is performed. -/
theorem C4_first_success (env : StartEnv) (st : AppState) (exe : String)
    (chosen pid k : Nat)
    (hd : env.defaultProbeSuccess = false)
    (hce : env.currentExe = Except.ok exe)
    (hap : allocatePort env.net desired_port = Except.ok chosen)
    (hsp : env.spawnResult = Except.ok pid)
    (hk1 : 1 ≤ k) (hk30 : k ≤ max_attempts)
    (hs : env.probe ("http://127.0.0.1:" ++ toString chosen) k = true)
    (hprev : ∀ j, 1 ≤ j → j < k →
        env.probe ("http://127.0.0.1:" ++ toString chosen) j = false) :
    (start_gradio_server env st).result =
        Except.ok ⟨"http://127.0.0.1:" ++ toString chosen, chosen, "running"⟩
    ∧ ((start_gradio_server env st).events.filter
        (fun ev => ev.percent == 100)).length = 1
    ∧ ∀ a ∈ (start_gradio_server env st).probedAttempts, a ≤ k := by
  have e1 : 1 + (k - 1) = k := by omega
  have hpoll : pollLoop (env.probe ("http://127.0.0.1:" ++ toString chosen))
      1 max_attempts
      = ⟨true, failEvents 1 (k - 1) ++ [⟨100, "Engine ready"⟩],
          failAttempts 1 (k - 1) ++ [1 + (k - 1)]⟩ :=
    pollLoop_first_success _ 1 (k - 1) max_attempts (by omega)
      (by rw [e1]; exact hs) (fun j h1 h2 => hprev j h1 (by omega))
  refine ⟨?_, ?_, ?_⟩
  · exact (start_run_ready env st exe chosen pid hd hce hap hsp
      (by rw [hpoll])).1
  · have hfail : (failEvents 1 (k - 1)).filter (fun ev => ev.percent == 100)
        = [] := by
      rw [List.filter_eq_nil_iff]
      intro ev hev
      rcases mem_failEvents 1 (k - 1) hev with ⟨j, _, _, rfl⟩
      have := progressPercent_le j
      simp only [beq_iff_eq]
      show ¬ progressPercent j = 100
      omega
    rw [(start_run_components env st exe chosen pid hd hce hap hsp).1, hpoll]
    simp [List.filter_append, hfail]
  · intro a ha
    rw [(start_run_components env st exe chosen pid hd hce hap hsp).2.2.1,
      hpoll] at ha
    simp only [List.mem_append, List.mem_singleton] at ha
    rcases ha with ha | ha
    · rcases mem_failAttempts 1 (k - 1) ha with ⟨h1, h2⟩
      omega
    · omega

/-- C4 witness: the first probe succeeds; the call returns `Ok` and emits a
single 100-percent event. -/
theorem C4_witness :
    (envFirstTry.probe ("http://127.0.0.1:" ++ toString 7860) 1 = true)
    ∧ (start_gradio_server envFirstTry ⟨none, none⟩).result =
        Except.ok ⟨"http://127.0.0.1:" ++ toString 7860, 7860, "running"⟩
    ∧ ((start_gradio_server envFirstTry ⟨none, none⟩).events.filter
        (fun ev => ev.percent == 100)).length = 1 :=
  ⟨rfl,
    (C4_first_success envFirstTry ⟨none, none⟩ "/opt/app/bin/app" 7860 4242 1
      rfl rfl rfl rfl (by decide) (by decide) rfl
      (fun j h1 h2 => by omega)).1,
    (C4_first_success envFirstTry ⟨none, none⟩ "/opt/app/bin/app" 7860 4242 1
      rfl rfl rfl rfl (by decide) (by decide) rfl
      (fun j h1 h2 => by omega)).2.1⟩

/-- C5: when the run reaches the readiness loop and attempts 1..n all fail
(n within the 30-attempt budget), the event emitted for attempt `n` - the
`n`-th `engine-progress` event after the launch event - carries exactly
`percent = min 95 (max 10 (10 + 3 * n))`, the capped linear ramp with floor
10 and cap 95 (the code's `10 + attempt * 3` capped at 95), and that percent
is strictly below 100. -/
theorem C5_ramp_percent (env : StartEnv) (st : AppState) (exe : String)
    (chosen pid n : Nat)
    (hd : env.defaultProbeSuccess = false)
    (hce : env.currentExe = Except.ok exe)
    (hap : allocatePort env.net desired_port = Except.ok chosen)
    (hsp : env.spawnResult = Except.ok pid)
    (hn1 : 1 ≤ n) (hn30 : n ≤ max_attempts)
    (hfail : ∀ j, 1 ≤ j → j ≤ n →
        env.probe ("http://127.0.0.1:" ++ toString chosen) j = false) :
    (start_gradio_server env st).events[n]? =
        some ⟨min 95 (max 10 (10 + 3 * n)), "Starting engine..."⟩
    ∧ min 95 (max 10 (10 + 3 * n)) < 100 := by
  have hsplit := pollLoop_split
    (env.probe ("http://127.0.0.1:" ++ toString chosen)) 1 n max_attempts hn30
    (fun j h1 h2 => hfail j h1 (by omega))
  constructor
  · obtain ⟨m, rfl⟩ : ∃ m, n = m + 1 := ⟨n - 1, by omega⟩
    have hlen : m < (failEvents 1 (m + 1)).length := by
      rw [failEvents_length]
      omega
    rw [(start_run_components env st exe chosen pid hd hce hap hsp).1, hsplit]
    simp only [List.getElem?_cons_succ]
    rw [List.getElem?_append_left hlen,
      failEvents_getElem 1 (m + 1) m (by omega)]
    have e1 : 1 + m = m + 1 := by omega
    rw [e1, progressPercent_eq_ramp]
  · have h := Nat.min_le_left 95 (max 10 (10 + 3 * n))
    omega

/-- C5 witness: with every probe failing, the event of attempt 30 carries
the capped percent 95. -/
theorem C5_witness :
    (1 ≤ 30 ∧ 30 ≤ max_attempts)
    ∧ (start_gradio_server envTimeout ⟨none, none⟩).events[30]? =
        some ⟨min 95 (max 10 (10 + 3 * 30)), "Starting engine..."⟩ :=
  ⟨⟨by decide, by decide⟩,
    (C5_ramp_percent envTimeout ⟨none, none⟩ "/opt/app/bin/app" 7860 4242 30
      rfl rfl rfl rfl (by decide) (by decide) (fun _ _ _ => rfl)).1⟩

/-- Both spawn branches pass `--server.port` immediately followed by the
decimal chosen port in the argument list. -/
theorem hasPortArg_spawnCommand (env : StartEnv) (p : Nat) :
    hasPortArg (spawnCommand env p).2 p = true := by
  rcases h : env.sidecar with _ | b <;> simp [spawnCommand, h, hasPortArg]

/-- C9: with the default port 7860 occupied and the OS assigning a free
ephemeral port `e`, a run of `start_gradio_server` that reaches the spawn
chooses `e` (necessarily different from 7860), spawns exactly one child
whose argument list carries `--server.port e`, and points the readiness
polling at `http://127.0.0.1:e`. -/
theorem C9_ephemeral_port_flow (env : StartEnv) (st : AppState) (exe : String)
    (e pid : Nat)
    (hd : env.defaultProbeSuccess = false)
    (hce : env.currentExe = Except.ok exe)
    (hocc : env.net.occupied 7860 = true)
    (heph : env.net.ephemeral = Except.ok e)
    (hfree : env.net.occupied e = false)
    (hsp : env.spawnResult = Except.ok pid) :
    e ≠ 7860
    ∧ (start_gradio_server env st).spawned = [spawnCommand env e]
    ∧ hasPortArg (spawnCommand env e).2 e = true
    ∧ (start_gradio_server env st).polledUrl =
        some ("http://127.0.0.1:" ++ toString e) := by
  have hap : allocatePort env.net desired_port = Except.ok e := by
    simp [allocatePort, desired_port, hocc, heph]
  have hne : e ≠ 7860 := by
    intro h
    rw [h, hocc] at hfree
    exact Bool.noConfusion hfree
  have hc := start_run_components env st exe e pid hd hce hap hsp
  exact ⟨hne, hc.2.1, hasPortArg_spawnCommand env e, hc.2.2.2.1⟩

/-- C9 witness: port 7860 occupied, ephemeral port 49152 assigned. -/
theorem C9_witness :
    (OsNet.occupied envBusyPort.net 7860 = true)
    ∧ 49152 ≠ 7860
    ∧ (start_gradio_server envBusyPort ⟨none, none⟩).spawned =
        [spawnCommand envBusyPort 49152]
    ∧ hasPortArg (spawnCommand envBusyPort 49152).2 49152 = true
    ∧ (start_gradio_server envBusyPort ⟨none, none⟩).polledUrl =
        some ("http://127.0.0.1:" ++ toString 49152) :=
  ⟨rfl,
    (C9_ephemeral_port_flow envBusyPort ⟨none, none⟩ "/opt/app/bin/app"
      49152 4242 rfl rfl rfl rfl rfl rfl).1,
    (C9_ephemeral_port_flow envBusyPort ⟨none, none⟩ "/opt/app/bin/app"
      49152 4242 rfl rfl rfl rfl rfl rfl).2.1,
    (C9_ephemeral_port_flow envBusyPort ⟨none, none⟩ "/opt/app/bin/app"
      49152 4242 rfl rfl rfl rfl rfl rfl).2.2.1,
    (C9_ephemeral_port_flow envBusyPort ⟨none, none⟩ "/opt/app/bin/app"
      49152 4242 rfl rfl rfl rfl rfl rfl).2.2.2⟩

/-- C10: (i) on every execution of `start_gradio_server` that returns an
error - current-exe failure, port exhaustion, spawn failure or readiness
timeout - the stored `ServerInfo` after the call equals the one before it,
so the registry is written only by executions that return `Ok`; (ii) on a
readiness timeout specifically, the call errors while the tracked process
id, written before the wait, is still the spawned pid. -/
theorem C10_registry_only_on_ok :
    (∀ (env : StartEnv) (st : AppState) (e : String),
        (start_gradio_server env st).result = Except.error e →
        (start_gradio_server env st).state.serverInfo = st.serverInfo)
    ∧ (∀ (env : StartEnv) (st : AppState) (exe : String) (chosen pid : Nat),
        env.defaultProbeSuccess = false →
        env.currentExe = Except.ok exe →
        allocatePort env.net desired_port = Except.ok chosen →
        env.spawnResult = Except.ok pid →
        (pollLoop (env.probe ("http://127.0.0.1:" ++ toString chosen))
          1 max_attempts).ready = false →
        (∃ msg, (start_gradio_server env st).result = Except.error msg)
        ∧ (start_gradio_server env st).state.processId = some pid) := by
  constructor
  · intro env st e h
    cases hd : env.defaultProbeSuccess
    · rcases hce : env.currentExe with err | exe
      · simp [start_gradio_server, hd, hce]
      · rcases hap : allocatePort env.net desired_port with err | chosen
        · simp [start_gradio_server, hd, hce, hap]
        · rcases hsp : env.spawnResult with err | pid
          · simp [start_gradio_server, hd, hce, hap, hsp]
          · cases hr : (pollLoop
                (env.probe ("http://127.0.0.1:" ++ toString chosen))
                1 max_attempts).ready
            · exact (start_run_timeout env st exe chosen pid hd hce hap hsp
                hr).2
            · rw [(start_run_ready env st exe chosen pid hd hce hap hsp
                hr).1] at h
              exact Except.noConfusion h
    · simp [start_gradio_server, hd] at h
  · intro env st exe chosen pid hd hce hap hsp hr
    exact ⟨⟨_, (start_run_timeout env st exe chosen pid hd hce hap hsp hr).1⟩,
      (start_run_components env st exe chosen pid hd hce hap hsp).2.2.2.2⟩

/-- C10 witness: a readiness-timeout run leaves the previously stored
`ServerInfo` in place, errors, and keeps the spawned pid tracked. -/
theorem C10_witness :
    (start_gradio_server envTimeout ⟨some info7860, some 9⟩).state.serverInfo
        = some info7860
    ∧ (∃ msg, (start_gradio_server envTimeout ⟨some info7860, some 9⟩).result
        = Except.error msg)
    ∧ (start_gradio_server envTimeout ⟨some info7860, some 9⟩).state.processId
        = some 4242 := by
  have h2 := C10_registry_only_on_ok.2 envTimeout ⟨some info7860, some 9⟩
    "/opt/app/bin/app" 7860 4242 rfl rfl rfl rfl (by rfl)
  have h1 := C10_registry_only_on_ok.1 envTimeout ⟨some info7860, some 9⟩
    ("Server failed to start or is not responding at "
      ++ ("http://127.0.0.1:" ++ toString 7860)) (by rfl)
  exact ⟨h1, h2.1, h2.2⟩
